import Mathlib

/-!
Shallow embedding of the core of the strimzi-registry-operator repository:
the Strimzi API-version resolver (strimzi.py), the Kafka bootstrap-server
resolver and the deployment updater (deployments.py), and the secret-event
filter and cluster-CA fan-out (handlers/secretwatcher.py).  Python dicts
with optional keys are modelled as association lists or structures with
Option fields; raised exceptions are modelled as Except / Option results.
-/

namespace SRO

/-- Python dict with string keys and values, kept as an association list in
Python insertion order: writing an existing key updates its value in place,
writing a new key appends it. -/
def dict_insert (d : List (String × String)) (k v : String) :
    List (String × String) :=
  if d.any (fun p => p.1 = k) then
    d.map (fun p => if p.1 = k then (k, v) else p)
  else
    d ++ [(k, v)]

/-- Lookup of a key in a Python dict modelled as an association list. -/
def dict_lookup (d : List (String × String)) (k : String) : Option String :=
  (d.find? (fun p => p.1 = k)).map (fun p => p.2)

/-- The keys of a Python dict, in insertion order. -/
def dict_keys (d : List (String × String)) : List String :=
  d.map (fun p => p.1)

/-- The spec field of a StrimziSchemaRegistry resource as consumed by
strimzi.py: the keys strimziVersion, strimzi-version (deprecated spelling,
held in strimziVersionDeprecated) and listener are each optional. -/
structure RegistrySpec where
  strimziVersion : Option String
  strimziVersionDeprecated : Option String
  listener : Option String
deriving DecidableEq

/-- get_api_version from strimzi.py.  Returns the resolved version together
with the list of messages passed to logger.warning.  The source tries
spec strimziVersion first, then the deprecated strimzi-version key, then
falls back to the default v1beta2.  In the deprecated-key branch the
logger.warning call is placed after the return statement, so it never
executes; the branch therefore emits no warning here. -/
def get_api_version (registry_name : String) (spec : RegistrySpec) :
    String × List String :=
  match spec.strimziVersion with
  | some v => (v, [])
  | none =>
    match spec.strimziVersionDeprecated with
    | some v => (v, [])
    | none =>
      ("v1beta2",
       ["StrimziSchemaRegistry " ++ registry_name ++
        " is missing a strimziVersion, using default v1beta2"])

/-- One entry of a status.listeners addresses array. -/
structure Address where
  host : String
  port : Nat
deriving DecidableEq

/-- One entry of status.listeners.  Every field is an optional dict key;
ltype stands for the type key (type is reserved in Lean). -/
structure StatusListener where
  name : Option String
  ltype : Option String
  bootstrapServers : Option String
  addresses : Option (List Address)
deriving DecidableEq

/-- One entry of spec.kafka.listeners.  Per the data model these entries
always carry name and type. -/
structure SpecListener where
  name : String
  ltype : String
deriving DecidableEq

/-- The slice of a Kafka cluster resource read by deployments.py.  The two
nested paths spec.kafka.listeners and status.listeners are optional. -/
structure Kafka where
  apiVersion : String
  specListeners : Option (List SpecListener)
  statusListeners : Option (List StatusListener)
deriving DecidableEq

/-- Failure outcomes of bootstrap-server resolution.  temporary models
kopf.TemporaryError (the retryable kind), fatal models kopf.Error (the
non-retryable kind of spec section 7); delay is the optional suggested
delay argument.  pyTypeError models the TypeError raised by str.join when
some element is None; pyKeyError models an uncaught KeyError. -/
inductive OpError where
  | temporary (msg : String) (delay : Option Nat)
  | fatal (msg : String) (delay : Option Nat)
  | pyTypeError
  | pyKeyError
deriving DecidableEq

/-- _format_server_address from deployments.py.  none models the KeyError
(bootstrapServers and addresses both missing) or IndexError (addresses
empty) escaping the function; both scan loops catch exactly these and
skip the entry. -/
def _format_server_address (ls : StatusListener) : Option String :=
  match ls.bootstrapServers with
  | some b => some b
  | none =>
    match ls.addresses with
    | none => none
    | some [] => none
    | some (a :: _) => some (a.host ++ ":" ++ toString a.port)

/-- The for-loop over status.listeners in the v1beta2 branch of
get_kafka_bootstrap_server: an entry matches when its name equals the
requested name, or else when its type equals the type looked up for the
requested name; a KeyError from a missing type key, or a failure of
_format_server_address on a matched entry, is caught and the loop
continues with the next entry. -/
def scan_v1beta2 (listener_name wanted_type : String) :
    List StatusListener → Option String
  | [] => none
  | l :: ls =>
    if l.name = some listener_name then
      match _format_server_address l with
      | some s => some s
      | none => scan_v1beta2 listener_name wanted_type ls
    else if l.ltype = some wanted_type then
      match _format_server_address l with
      | some s => some s
      | none => scan_v1beta2 listener_name wanted_type ls
    else
      scan_v1beta2 listener_name wanted_type ls

/-- The list comprehension building the name-to-type dict from
spec.kafka.listeners, with Python dict semantics. -/
def spec_listener_types (spec_ls : List SpecListener) :
    List (String × String) :=
  spec_ls.foldl (fun d l => dict_insert d l.name l.ltype) []

/-- The list comprehension of listener.get of the type key over
status.listeners, followed by str.join: Python join raises TypeError when
any element is None, so the whole result is none exactly in that case. -/
def collect_types : List StatusListener → Option (List String)
  | [] => some []
  | l :: ls =>
    match l.ltype with
    | none => none
    | some t =>
      match collect_types ls with
      | none => none
      | some ts => some (t :: ts)

/-- The message of the no-match kopf.Error in the v1beta2 branch. -/
def v1beta2_no_match_msg (listener_name : String) (ts : List String) :
    String :=
  "Could not find address of a listener named " ++ listener_name ++
  " from the Kafka resource. Available names: " ++
  String.intercalate ", " ts

/-- The no-match outcome of the v1beta2 branch: building the message joins
the collected type fields, which raises TypeError when any entry lacks a
type; otherwise kopf.Error is raised with delay 10. -/
def v1beta2_no_match_result (listener_name : String)
    (listeners : List StatusListener) : OpError :=
  match collect_types listeners with
  | none => OpError.pyTypeError
  | some ts => OpError.fatal (v1beta2_no_match_msg listener_name ts) (some 10)

/-- The message of the unknown-listener TemporaryError in the v1beta2
branch (no delay argument is passed there). -/
def unknown_listener_msg (listener_name : String)
    (spec_ls : List SpecListener) : String :=
  "Listener named " ++ listener_name ++
  " is not known. Available listeners are " ++
  String.intercalate ", " (dict_keys (spec_listener_types spec_ls))

/-- The v1beta2-or-later branch of get_kafka_bootstrap_server from
deployments.py (everything after the v1beta1 dispatch): build the
name-to-type dict from spec.kafka.listeners, reject unknown names with a
TemporaryError, require status.listeners with a TemporaryError of delay
10, scan, and on no match raise the enumerating kopf.Error. -/
def get_v1beta2_bootstrap_server (kafka : Kafka) (listener_name : String) :
    Except OpError String :=
  match kafka.specListeners with
  | none => Except.error OpError.pyKeyError
  | some spec_ls =>
    match dict_lookup (spec_listener_types spec_ls) listener_name with
    | none =>
      Except.error
        (OpError.temporary (unknown_listener_msg listener_name spec_ls) none)
    | some wanted_type =>
      match kafka.statusListeners with
      | none =>
        Except.error
          (OpError.temporary
            "Could not get status.listeners from Kafka resource." (some 10))
      | some listeners =>
        match scan_v1beta2 listener_name wanted_type listeners with
        | some server => Except.ok server
        | none =>
          Except.error (v1beta2_no_match_result listener_name listeners)

/-- The for-loop over status.listeners in _get_v1beta1_bootstrap_server:
an entry matches on its type key alone; a KeyError from a missing type
key, or a failure of _format_server_address on a matched entry, is caught
and the loop continues. -/
def scan_v1beta1 (listener_type : String) :
    List StatusListener → Option String
  | [] => none
  | l :: ls =>
    if l.ltype = some listener_type then
      match _format_server_address l with
      | some s => some s
      | none => scan_v1beta1 listener_type ls
    else
      scan_v1beta1 listener_type ls

/-- Python repr of a list of strings, as produced by interpolating a list
into an f-string. -/
def py_repr_str_list (xs : List String) : String :=
  "[" ++ String.intercalate ", "
    (xs.map (fun s => "\x27" ++ s ++ "\x27")) ++ "]"

/-- The message of the no-match TemporaryError in the v1beta1 branch.
Missing type keys are substituted by UNKNOWN via listener.get; the two
adjacent f-strings of the source concatenate without a space between
listener and from. -/
def v1beta1_no_match_msg (listener_type : String)
    (listeners : List StatusListener) : String :=
  "Could not find address of a " ++ listener_type ++ " listener" ++
  "from the Kafka resource. Available types: " ++
  py_repr_str_list (listeners.map (fun l => l.ltype.getD "UNKNOWN"))

/-- _get_v1beta1_bootstrap_server from deployments.py. -/
def _get_v1beta1_bootstrap_server (kafka : Kafka) (listener_type : String) :
    Except OpError String :=
  match kafka.statusListeners with
  | none =>
    Except.error
      (OpError.temporary
        "Could not get status.listeners from Kafka resource." (some 10))
  | some listeners =>
    match scan_v1beta1 listener_type listeners with
    | some server => Except.ok server
    | none =>
      Except.error
        (OpError.temporary (v1beta1_no_match_msg listener_type listeners)
          (some 10))

/-- get_kafka_bootstrap_server from deployments.py: dispatch to the legacy
algorithm exactly when apiVersion equals kafka.strimzi.io/v1beta1, and to
the v1beta2-or-later algorithm otherwise. -/
def get_kafka_bootstrap_server (kafka : Kafka) (listener_name : String) :
    Except OpError String :=
  if kafka.apiVersion = "kafka.strimzi.io/v1beta1" then
    _get_v1beta1_bootstrap_server kafka listener_name
  else
    get_v1beta2_bootstrap_server kafka listener_name

/-- Object metadata of a Kubernetes resource: the name, labels and the
annotations dict. -/
structure ObjectMeta where
  name : String
  labels : List (String × String)
  annotations : List (String × String)
deriving DecidableEq

/-- The pod template of a Deployment: its own metadata plus the pod spec
content (containers, volumes), which this core never rewrites. -/
structure PodTemplate where
  metadata : ObjectMeta
  containers : List String
  volumes : List String
deriving DecidableEq

/-- Deployment.spec as read and written by deployments.py. -/
structure DeploymentSpec where
  replicas : Nat
  selector : List (String × String)
  template : PodTemplate
deriving DecidableEq

/-- A Deployment resource: top-level metadata and the spec. -/
structure Deployment where
  metadata : ObjectMeta
  spec : DeploymentSpec
deriving DecidableEq

/-- The annotation key written by update_deployment and create_deployment. -/
def jks_version_key : String :=
  "strimziregistryoperator.roundtable.lsst.codes/jksVersion"

/-- update_deployment from deployments.py.  The single mutation of the
source is the statement writing deployment.metadata.annotations at the
jksVersion key (the top-level object metadata, not the pod template
metadata); the function then hands the mutated body to the external
patch_namespaced_deployment call, modelled here as the returned value. -/
def update_deployment (deployment : Deployment) (secret_version : String) :
    Deployment :=
  { deployment with
    metadata :=
      { deployment.metadata with
        annotations :=
          dict_insert deployment.metadata.annotations jks_version_key
            secret_version } }

/-- Which reconciler handle_secret_change dispatches to. -/
inductive Dispatch where
  | clusterCA
  | clientSecret
deriving DecidableEq

/-- The process-wide state module: cluster_name and registry_names, set at
startup and read-only afterwards. -/
structure OperatorState where
  cluster_name : String
  registry_names : List String
deriving DecidableEq

/-- An inbound secret event as seen by handle_secret_change: the event type
string, the optional metadata labels dict, and the secret name. -/
structure SecretEvent where
  eventType : String
  labels : Option (List (String × String))
  name : String
deriving DecidableEq

/-- The nested lookup meta labels strimzi.io/cluster: none when the labels
dict or the key is missing (the KeyError path of the source). -/
def cluster_label (ev : SecretEvent) : Option String :=
  ev.labels.bind (fun ls => dict_lookup ls "strimzi.io/cluster")

/-- handle_secret_change from handlers/secretwatcher.py, as the dispatch
decision it makes: none on every ignore path (wrong event type, missing
label, label not equal to cluster_name, unrecognised name), or the
reconciler invoked. -/
def handle_secret_change (st : OperatorState) (ev : SecretEvent) :
    Option Dispatch :=
  if ev.eventType ∉ (["ADDED", "MODIFIED"] : List String) then
    none
  else
    match cluster_label ev with
    | none => none
    | some c =>
      if c ≠ st.cluster_name then
        none
      else if ev.name = st.cluster_name ++ "-cluster-ca-cert" then
        some Dispatch.clusterCA
      else if ev.name ∈ st.registry_names then
        some Dispatch.clientSecret
      else
        none

/-- A failure of one of the external collaborators invoked per registry, or
an uncaught KeyError on a returned payload. -/
inductive RegErr where
  | external (step : String)
  | keyErr (field : String)
deriving DecidableEq

/-- The body of a StrimziSchemaRegistry resource: only its spec is read. -/
structure SsrBody where
  spec : RegistrySpec
deriving DecidableEq

/-- The KafkaUser payload: only status.secret is read, an optional key. -/
structure KafkaUser where
  statusSecret : Option String
deriving DecidableEq

/-- The regenerated certificate Secret: only resourceVersion is read. -/
structure SecretResource where
  resourceVersion : String
deriving DecidableEq

/-- The external collaborators used inside the fan-out loop of
refresh_with_new_cluster_ca, each of which may fail: get_ssr by registry
name; get_kafka_user by name and resolved api version; create_secret from
the user secret name and the owning resource; get_deployment by name; and
the patch of the updated deployment. -/
structure ClusterCaEnv where
  get_ssr : String → Except RegErr SsrBody
  get_kafka_user : String → String → Except RegErr KafkaUser
  create_secret : String → SsrBody → Except RegErr SecretResource
  get_deployment : String → Except RegErr Deployment
  patch_deployment : String → Deployment → Except RegErr Unit

/-- The body of one iteration of the fan-out loop in
refresh_with_new_cluster_ca: fetch the registry resource, resolve the
Strimzi api version, fetch the KafkaUser, read its status.secret key
(KeyError when absent), regenerate the Secret, fetch the deployment and
patch it with the new resourceVersion.  Any failure propagates. -/
def process_registry (env : ClusterCaEnv) (registry_name : String) :
    Except RegErr Unit := do
  let ssr ← env.get_ssr registry_name
  let version := (get_api_version registry_name ssr.spec).1
  let user ← env.get_kafka_user registry_name version
  let userSecretName ←
    match user.statusSecret with
    | some s => Except.ok s
    | none => Except.error (RegErr.keyErr "status.secret")
  let secret ← env.create_secret userSecretName ssr
  let dep ← env.get_deployment registry_name
  env.patch_deployment registry_name
    (update_deployment dep secret.resourceVersion)

/-- The for-loop of refresh_with_new_cluster_ca over registry_names: the
body has no exception handler, so the first failure propagates out of the
whole handler. -/
def refresh_with_new_cluster_ca (env : ClusterCaEnv) :
    List String → Except RegErr Unit
  | [] => Except.ok ()
  | r :: rs =>
    match process_registry env r with
    | Except.ok _ => refresh_with_new_cluster_ca env rs
    | Except.error e => Except.error e

/-- The registries for which the loop of refresh_with_new_cluster_ca
performs a refresh attempt: processing stops at the first failure. -/
def attempted_registries (env : ClusterCaEnv) :
    List String → List String
  | [] => []
  | r :: rs =>
    match process_registry env r with
    | Except.ok _ => r :: attempted_registries env rs
    | Except.error _ => [r]

/-- Joining the collected type fields fails as soon as one status entry
lacks a type field. -/
theorem collect_types_eq_none {listeners : List StatusListener}
    (h : ∃ l ∈ listeners, l.ltype = none) : collect_types listeners = none := by
  induction listeners with
  | nil => rcases h with ⟨l, hl, _⟩; cases hl
  | cons x xs ih =>
    rcases h with ⟨l, hl, hnone⟩
    rcases List.mem_cons.mp hl with rfl | hmem
    · simp [collect_types, hnone]
    · cases hx : x.ltype with
      | none => simp [collect_types, hx]
      | some t => simp [collect_types, hx, ih ⟨l, hmem, hnone⟩]

/-- Concrete deployment input for the C1 evaluation: empty annotation dicts
at both the top level and the pod template. -/
def c1_deployment : Deployment :=
  { metadata := { name := "myreg", labels := [("app", "myreg")], annotations := [] },
    spec :=
      { replicas := 1, selector := [("app", "myreg")],
        template :=
          { metadata :=
              { name := "", labels := [("app", "myreg")], annotations := [] },
            containers := ["server"], volumes := ["tls"] } } }

/-- C1: update_deployment writes the jksVersion annotation into the
deployment top-level metadata and leaves Deployment.spec, in particular
the pod-template metadata annotations, unchanged, contrary to the claim
that the write goes to Deployment.spec.template.metadata.annotations. -/
theorem C1_annotation_written_to_toplevel_metadata :
    (update_deployment c1_deployment "123").metadata.annotations =
      [(jks_version_key, "123")] ∧
    (update_deployment c1_deployment "123").spec = c1_deployment.spec ∧
    (update_deployment c1_deployment "123").spec.template.metadata.annotations
      = [] :=
  ⟨rfl, rfl, rfl⟩

/-- C3: get_api_version at a spec carrying only the deprecated
strimzi-version key returns that value but emits no deprecation warning,
because the warning statement of the source is dead code after the
return; the strimziVersion branch and the default branch behave as
claimed. -/
theorem C3_deprecated_key_emits_no_warning :
    get_api_version "myregistry"
        { strimziVersion := none, strimziVersionDeprecated := some "v1beta1",
          listener := none } = ("v1beta1", []) ∧
    get_api_version "myregistry"
        { strimziVersion := some "v1", strimziVersionDeprecated := some "v1beta1",
          listener := none } = ("v1", []) ∧
    get_api_version "myregistry"
        { strimziVersion := none, strimziVersionDeprecated := none,
          listener := none } =
      ("v1beta2",
       ["StrimziSchemaRegistry myregistry is missing a strimziVersion, " ++
        "using default v1beta2"]) :=
  ⟨rfl, rfl, rfl⟩

/-- C4 counterexample: a current-generation resource whose requested name
is a key of the spec map and whose status.listeners is present but holds
a single untyped, unmatching entry: the scan completes without a match,
yet the outcome is the TypeError raised while joining a None type, not a
non-retryable Error enumerating the observed listener types. -/
theorem C4_counterexample :
    get_kafka_bootstrap_server
        { apiVersion := "kafka.strimzi.io/v1beta2",
          specListeners := some [{ name := "tls", ltype := "internal" }],
          statusListeners := some
            [{ name := none, ltype := none, bootstrapServers := none,
               addresses := none }] }
        "tls" = Except.error OpError.pyTypeError :=
  rfl

/-- C4 amended: for a current-generation Kafka resource whose requested
listener name maps to a type in the spec and whose status.listeners is
present, when the scan completes with no match and every status entry
carries a type field (so collecting the observed types succeeds with ts),
resolution fails with the non-retryable kopf.Error whose message
enumerates the observed listener types. -/
theorem C4_no_match_fatal (kafka : Kafka) (listener_name wanted_type : String)
    (spec_ls : List SpecListener) (listeners : List StatusListener)
    (ts : List String)
    (hapi : kafka.apiVersion ≠ "kafka.strimzi.io/v1beta1")
    (hspec : kafka.specListeners = some spec_ls)
    (hwt : dict_lookup (spec_listener_types spec_ls) listener_name =
      some wanted_type)
    (hstat : kafka.statusListeners = some listeners)
    (hscan : scan_v1beta2 listener_name wanted_type listeners = none)
    (htypes : collect_types listeners = some ts) :
    get_kafka_bootstrap_server kafka listener_name =
      Except.error
        (OpError.fatal (v1beta2_no_match_msg listener_name ts) (some 10)) := by
  obtain ⟨api, specL, statL⟩ := kafka
  cases hspec
  cases hstat
  simp [get_kafka_bootstrap_server, hapi, get_v1beta2_bootstrap_server, hwt,
    hscan, v1beta2_no_match_result, htypes]

/-- Closed instance of C4_no_match_fatal: one typed status entry that
matches neither by name nor by type. -/
theorem C4_no_match_fatal_witness :
    get_kafka_bootstrap_server
        { apiVersion := "kafka.strimzi.io/v1beta2",
          specListeners := some [{ name := "tls", ltype := "internal" }],
          statusListeners := some
            [{ name := none, ltype := some "route", bootstrapServers := none,
               addresses := none }] }
        "tls" =
      Except.error
        (OpError.fatal (v1beta2_no_match_msg "tls" ["route"]) (some 10)) :=
  C4_no_match_fatal _ "tls" "internal" [{ name := "tls", ltype := "internal" }]
    [{ name := none, ltype := some "route", bootstrapServers := none,
       addresses := none }]
    ["route"] (by decide) rfl rfl rfl rfl rfl

/-- C5: an inbound secret event whose type is not ADDED or MODIFIED, or
whose strimzi.io/cluster label is absent or differs from cluster_name, is
dropped by handle_secret_change before either reconciler: the handler
dispatches nothing, whatever the event name, so no state change occurs. -/
theorem C5_irrelevant_event_ignored (st : OperatorState) (ev : SecretEvent)
    (h : ev.eventType ∉ (["ADDED", "MODIFIED"] : List String) ∨
      cluster_label ev ≠ some st.cluster_name) :
    handle_secret_change st ev = none := by
  unfold handle_secret_change
  by_cases ht : ev.eventType ∉ (["ADDED", "MODIFIED"] : List String)
  · rw [if_pos ht]
  · rw [if_neg ht]
    rcases h with h | h
    · exact absurd h ht
    · cases hc : cluster_label ev with
      | none => rfl
      | some c =>
        have hcne : c ≠ st.cluster_name := by
          intro hEq
          exact h (by rw [hc, hEq])
        simp [hcne]

/-- Closed instances of C5_irrelevant_event_ignored: a DELETED event named
exactly like the cluster-CA secret with a matching label, and a MODIFIED
event named like a managed registry but with no labels at all. -/
theorem C5_witness :
    handle_secret_change { cluster_name := "main", registry_names := ["reg1"] }
        { eventType := "DELETED",
          labels := some [("strimzi.io/cluster", "main")],
          name := "main-cluster-ca-cert" } = none ∧
    handle_secret_change { cluster_name := "main", registry_names := ["reg1"] }
        { eventType := "MODIFIED", labels := none, name := "reg1" } = none :=
  ⟨C5_irrelevant_event_ignored _ _ (Or.inl (by decide)),
   C5_irrelevant_event_ignored _ _ (Or.inr (by decide))⟩

/-- C6: a matched status entry with a bootstrapServers field yields that
value verbatim whatever its addresses field holds; without it the address
is host:port from the first element of addresses; and an entry whose
formatting raises (bootstrapServers and addresses missing, or addresses
empty) is skipped by both scan loops, which continue with the rest. -/
theorem C6_address_formatting_and_skip :
    (∀ (l : StatusListener) (b : String),
      l.bootstrapServers = some b → _format_server_address l = some b) ∧
    (∀ (l : StatusListener) (a : Address) (rest : List Address),
      l.bootstrapServers = none → l.addresses = some (a :: rest) →
      _format_server_address l = some (a.host ++ ":" ++ toString a.port)) ∧
    (∀ (listener_name wanted_type : String) (l : StatusListener)
      (ls : List StatusListener),
      _format_server_address l = none →
      scan_v1beta2 listener_name wanted_type (l :: ls) =
        scan_v1beta2 listener_name wanted_type ls) ∧
    (∀ (listener_type : String) (l : StatusListener)
      (ls : List StatusListener),
      _format_server_address l = none →
      scan_v1beta1 listener_type (l :: ls) = scan_v1beta1 listener_type ls) := by
  refine ⟨?_, ?_, ?_, ?_⟩
  · intro l b h
    unfold _format_server_address
    rw [h]
  · intro l a rest h1 h2
    unfold _format_server_address
    rw [h1, h2]
  · intro listener_name wanted_type l ls h
    simp only [scan_v1beta2, h]
    split <;> simp
  · intro listener_type l ls h
    simp only [scan_v1beta1, h]
    split <;> simp

/-- Closed instances of C6_address_formatting_and_skip: verbatim
bootstrapServers next to a populated addresses field, host:port
formatting, and one skipped entry per scan loop. -/
theorem C6_witness :
    _format_server_address
        { name := none, ltype := none, bootstrapServers := some "b:9092",
          addresses := some [{ host := "h", port := 1 }] } = some "b:9092" ∧
    _format_server_address
        { name := none, ltype := none, bootstrapServers := none,
          addresses := some [{ host := "h", port := 9092 }] } = some "h:9092" ∧
    scan_v1beta2 "tls" "internal"
        [{ name := some "tls", ltype := none, bootstrapServers := none,
           addresses := some [] },
         { name := none, ltype := some "internal",
           bootstrapServers := some "x:1", addresses := none }] =
      scan_v1beta2 "tls" "internal"
        [{ name := none, ltype := some "internal",
           bootstrapServers := some "x:1", addresses := none }] ∧
    scan_v1beta1 "tls"
        [{ name := none, ltype := some "tls", bootstrapServers := none,
           addresses := some [] }] =
      scan_v1beta1 "tls" [] :=
  ⟨C6_address_formatting_and_skip.1 _ "b:9092" rfl,
   C6_address_formatting_and_skip.2.1 _ { host := "h", port := 9092 } [] rfl rfl,
   C6_address_formatting_and_skip.2.2.1 "tls" "internal" _ _ rfl,
   C6_address_formatting_and_skip.2.2.2 "tls" _ _ rfl⟩

/-- C7: a Kafka resource missing status.listeners fails with the
TemporaryError of suggested delay 10 in both generations; in the current
generation this holds provided the requested listener name is a key of
the spec-derived name-to-type map. -/
theorem C7_missing_status_retryable (kafka : Kafka) (listener_name : String)
    (hstat : kafka.statusListeners = none) :
    (kafka.apiVersion = "kafka.strimzi.io/v1beta1" →
      get_kafka_bootstrap_server kafka listener_name =
        Except.error (OpError.temporary
          "Could not get status.listeners from Kafka resource." (some 10))) ∧
    (∀ (spec_ls : List SpecListener) (wanted_type : String),
      kafka.apiVersion ≠ "kafka.strimzi.io/v1beta1" →
      kafka.specListeners = some spec_ls →
      dict_lookup (spec_listener_types spec_ls) listener_name =
        some wanted_type →
      get_kafka_bootstrap_server kafka listener_name =
        Except.error (OpError.temporary
          "Could not get status.listeners from Kafka resource." (some 10))) := by
  obtain ⟨api, specL, statL⟩ := kafka
  cases hstat
  constructor
  · intro h
    cases h
    simp [get_kafka_bootstrap_server, _get_v1beta1_bootstrap_server]
  · intro spec_ls wanted_type hapi hspec hwt
    cases hspec
    simp [get_kafka_bootstrap_server, hapi, get_v1beta2_bootstrap_server, hwt]

/-- Closed instances of C7_missing_status_retryable in both generations. -/
theorem C7_witness :
    get_kafka_bootstrap_server
        { apiVersion := "kafka.strimzi.io/v1beta1", specListeners := none,
          statusListeners := none } "tls" =
      Except.error (OpError.temporary
        "Could not get status.listeners from Kafka resource." (some 10)) ∧
    get_kafka_bootstrap_server
        { apiVersion := "kafka.strimzi.io/v1beta2",
          specListeners := some [{ name := "tls", ltype := "internal" }],
          statusListeners := none } "tls" =
      Except.error (OpError.temporary
        "Could not get status.listeners from Kafka resource." (some 10)) :=
  ⟨(C7_missing_status_retryable _ "tls" rfl).1 rfl,
   (C7_missing_status_retryable _ "tls" rfl).2
     [{ name := "tls", ltype := "internal" }] "internal" (by decide) rfl rfl⟩

/-- C8: on a current-generation resource, a requested listener name that is
not a key of the spec-derived name-to-type map fails with a
TemporaryError whose message enumerates the known listener names, and the
outcome does not depend on status.listeners at all. -/
theorem C8_unknown_listener_name (kafka : Kafka) (listener_name : String)
    (spec_ls : List SpecListener)
    (hapi : kafka.apiVersion ≠ "kafka.strimzi.io/v1beta1")
    (hspec : kafka.specListeners = some spec_ls)
    (hmiss : dict_lookup (spec_listener_types spec_ls) listener_name = none) :
    get_kafka_bootstrap_server kafka listener_name =
      Except.error (OpError.temporary
        ("Listener named " ++ listener_name ++
         " is not known. Available listeners are " ++
         String.intercalate ", " (dict_keys (spec_listener_types spec_ls)))
        none) ∧
    (∀ st : Option (List StatusListener),
      get_kafka_bootstrap_server { kafka with statusListeners := st }
          listener_name =
        get_kafka_bootstrap_server kafka listener_name) := by
  obtain ⟨api, specL, statL⟩ := kafka
  cases hspec
  constructor
  · simp [get_kafka_bootstrap_server, hapi, get_v1beta2_bootstrap_server,
      hmiss, unknown_listener_msg]
  · intro st
    simp [get_kafka_bootstrap_server, hapi, get_v1beta2_bootstrap_server,
      hmiss]

/-- Closed instance of C8_unknown_listener_name. -/
theorem C8_witness :
    get_kafka_bootstrap_server
        { apiVersion := "kafka.strimzi.io/v1beta2",
          specListeners := some [{ name := "plain", ltype := "internal" }],
          statusListeners := none } "tls" =
      Except.error (OpError.temporary
        "Listener named tls is not known. Available listeners are plain"
        none) :=
  (C8_unknown_listener_name _ "tls" [{ name := "plain", ltype := "internal" }]
    (by decide) rfl rfl).1

/-- C9: get_kafka_bootstrap_server runs the legacy type-based algorithm
exactly when apiVersion is the string kafka.strimzi.io/v1beta1, and the
name-based v1beta2 algorithm for every other apiVersion string. -/
theorem C9_generation_dispatch (kafka : Kafka) (listener_name : String) :
    (kafka.apiVersion = "kafka.strimzi.io/v1beta1" →
      get_kafka_bootstrap_server kafka listener_name =
        _get_v1beta1_bootstrap_server kafka listener_name) ∧
    (kafka.apiVersion ≠ "kafka.strimzi.io/v1beta1" →
      get_kafka_bootstrap_server kafka listener_name =
        get_v1beta2_bootstrap_server kafka listener_name) := by
  constructor <;> intro h <;> simp [get_kafka_bootstrap_server, h]

/-- Closed instances of C9_generation_dispatch, with an arbitrary older
version string on the current-generation side. -/
theorem C9_witness :
    get_kafka_bootstrap_server
        { apiVersion := "kafka.strimzi.io/v1alpha1", specListeners := none,
          statusListeners := none } "tls" =
      get_v1beta2_bootstrap_server
        { apiVersion := "kafka.strimzi.io/v1alpha1", specListeners := none,
          statusListeners := none } "tls" ∧
    get_kafka_bootstrap_server
        { apiVersion := "kafka.strimzi.io/v1beta1", specListeners := none,
          statusListeners := none } "tls" =
      _get_v1beta1_bootstrap_server
        { apiVersion := "kafka.strimzi.io/v1beta1", specListeners := none,
          statusListeners := none } "tls" :=
  ⟨(C9_generation_dispatch _ "tls").2 (by decide),
   (C9_generation_dispatch _ "tls").1 rfl⟩

/-- C10: when the current-generation scan completes with no match, an
untyped status entry makes the enumeration join raise TypeError, so the
specified enumerating kopf.Error is not produced; the legacy path instead
substitutes UNKNOWN for missing type fields and always produces its
enumerating TemporaryError message. -/
theorem C10_enumeration_requires_types :
    (∀ (kafka : Kafka) (listener_name wanted_type : String)
      (spec_ls : List SpecListener) (listeners : List StatusListener),
      kafka.apiVersion ≠ "kafka.strimzi.io/v1beta1" →
      kafka.specListeners = some spec_ls →
      dict_lookup (spec_listener_types spec_ls) listener_name =
        some wanted_type →
      kafka.statusListeners = some listeners →
      scan_v1beta2 listener_name wanted_type listeners = none →
      (∃ l ∈ listeners, l.ltype = none) →
      get_kafka_bootstrap_server kafka listener_name =
        Except.error OpError.pyTypeError) ∧
    (∀ (kafka : Kafka) (listener_type : String)
      (listeners : List StatusListener),
      kafka.apiVersion = "kafka.strimzi.io/v1beta1" →
      kafka.statusListeners = some listeners →
      scan_v1beta1 listener_type listeners = none →
      get_kafka_bootstrap_server kafka listener_type =
        Except.error (OpError.temporary
          (v1beta1_no_match_msg listener_type listeners) (some 10))) := by
  constructor
  · intro kafka listener_name wanted_type spec_ls listeners hapi hspec hwt
      hstat hscan hex
    obtain ⟨api, specL, statL⟩ := kafka
    cases hspec
    cases hstat
    simp [get_kafka_bootstrap_server, hapi, get_v1beta2_bootstrap_server,
      hwt, hscan, v1beta2_no_match_result, collect_types_eq_none hex]
  · intro kafka listener_type listeners hapi hstat hscan
    obtain ⟨api, specL, statL⟩ := kafka
    cases hapi
    cases hstat
    simp [get_kafka_bootstrap_server, _get_v1beta1_bootstrap_server, hscan]

/-- Closed instances of C10_enumeration_requires_types: an untyped entry on
the v1beta2 side, and a legacy status list mixing a missing type with a
present one. -/
theorem C10_witness :
    get_kafka_bootstrap_server
        { apiVersion := "kafka.strimzi.io/v1beta2",
          specListeners := some [{ name := "tls", ltype := "internal" }],
          statusListeners := some
            [{ name := some "other", ltype := none, bootstrapServers := none,
               addresses := none }] }
        "tls" = Except.error OpError.pyTypeError ∧
    get_kafka_bootstrap_server
        { apiVersion := "kafka.strimzi.io/v1beta1", specListeners := none,
          statusListeners := some
            [{ name := none, ltype := none, bootstrapServers := none,
               addresses := none },
             { name := none, ltype := some "plain", bootstrapServers := none,
               addresses := none }] }
        "tls" =
      Except.error (OpError.temporary
        (v1beta1_no_match_msg "tls"
          [{ name := none, ltype := none, bootstrapServers := none,
             addresses := none },
           { name := none, ltype := some "plain", bootstrapServers := none,
             addresses := none }])
        (some 10)) :=
  ⟨C10_enumeration_requires_types.1 _ "tls" "internal"
      [{ name := "tls", ltype := "internal" }]
      [{ name := some "other", ltype := none, bootstrapServers := none,
         addresses := none }]
      (by decide) rfl rfl rfl rfl
      ⟨{ name := some "other", ltype := none, bootstrapServers := none,
         addresses := none }, by decide, rfl⟩,
   C10_enumeration_requires_types.2 _ "tls" _ rfl rfl rfl⟩

/-- Concrete registry resource used by the C2 environment. -/
def c2_ssr : SsrBody :=
  { spec :=
      { strimziVersion := some "v1beta2", strimziVersionDeprecated := none,
        listener := none } }

/-- Concrete deployment used by the C2 environment. -/
def c2_deployment : Deployment :=
  { metadata := { name := "b", labels := [], annotations := [] },
    spec :=
      { replicas := 1, selector := [],
        template :=
          { metadata := { name := "", labels := [], annotations := [] },
            containers := [], volumes := [] } } }

/-- An environment in which processing registry a fails at get_ssr while
every other registry processes successfully. -/
def c2_env : ClusterCaEnv where
  get_ssr := fun r =>
    if r = "a" then Except.error (RegErr.external "get_ssr")
    else Except.ok c2_ssr
  get_kafka_user := fun _ _ => Except.ok { statusSecret := some "b-secret" }
  create_secret := fun _ _ => Except.ok { resourceVersion := "42" }
  get_deployment := fun _ => Except.ok c2_deployment
  patch_deployment := fun _ _ => Except.ok ()

/-- C2 counterexample: with the registry set listed as a then b, where only
a fails (b on its own processes fine), the fan-out performs a refresh
attempt for a alone: b never gets its attempt, and the failure of a
propagates out of the whole handler. -/
theorem C2_counterexample :
    attempted_registries c2_env ["a", "b"] = ["a"] ∧
    process_registry c2_env "b" = Except.ok () ∧
    refresh_with_new_cluster_ca c2_env ["a", "b"] =
      Except.error (RegErr.external "get_ssr") :=
  ⟨rfl, rfl, rfl⟩

/-- C2 amended: the fan-out of refresh_with_new_cluster_ca attempts
registries in order and stops at the first failure: a successfully
processed registry lets the loop continue with the rest, while a failing
registry ends the loop with only the registries up to and including it
attempted, so the remaining registries get no refresh attempt. -/
theorem C2_failure_aborts_fanout (env : ClusterCaEnv) (r : String)
    (rs : List String) :
    (process_registry env r = Except.ok () →
      attempted_registries env (r :: rs) =
        r :: attempted_registries env rs) ∧
    (∀ e : RegErr, process_registry env r = Except.error e →
      attempted_registries env (r :: rs) = [r]) := by
  constructor
  · intro h
    simp [attempted_registries, h]
  · intro e h
    simp [attempted_registries, h]

/-- Closed instances of C2_failure_aborts_fanout on the concrete
environment: b continues the loop, a cuts it short. -/
theorem C2_witness :
    attempted_registries c2_env ["b", "a"] =
      "b" :: attempted_registries c2_env ["a"] ∧
    attempted_registries c2_env ["a", "b"] = ["a"] :=
  ⟨(C2_failure_aborts_fanout c2_env "b" ["a"]).1 rfl,
   (C2_failure_aborts_fanout c2_env "a" ["b"]).2 (RegErr.external "get_ssr")
     rfl⟩

end SRO
